import Mathlib

/-!
Verification development for the FARM-AI chat widget
(source: `src/chatbot.tsx`, React component `Chatbot`).

The component is embedded shallowly:
* JavaScript numbers are modelled by `JSNum`: either `NaN`, one of the two
  infinities, or a finite value represented as a rational number.  The
  four input fields have TypeScript type `number | null`, modelled as
  `Option JSNum` (with `none` for `null`).
* React `useState` state is gathered into an explicit `State` record and
  every handler becomes a pure state transformer.
* The `fetch` promise chain of `sendDataToBackend` is modelled by a
  function from an abstract network outcome (`FetchOutcome`) to the next
  state; JavaScript exceptions (e.g. calling `.toFixed` on `undefined`)
  are modelled with `Except String`.
* String formatting (`JSON.stringify` of the fixed-shape request object,
  template literals, `Number.prototype.toFixed`, `String(number)`) is
  reproduced by executable helpers on rationals; `toFixed` rounds half
  away from zero on the absolute value exactly as specified for JS.
-/

/-- The two message senders of the `Message` TypeScript interface. -/
inductive Sender where
  | user
  | bot
deriving Repr, DecidableEq

/-- One chat message: `interface Message { sender: 'user' | 'bot'; text: string }`. -/
structure Message where
  sender : Sender
  text : String
deriving Repr, DecidableEq

/-- A JavaScript `number` value: `NaN`, `Infinity`, `-Infinity`, or a finite
value (modelled as an exact rational).  Note that `parseFloat` can produce
`Infinity` (e.g. from the string "1e999"), so infinities belong to the
value space of the four input fields. -/
inductive JSNum where
  | nan
  | posInf
  | negInf
  | finite (q : ℚ)
deriving Repr, DecidableEq

/-- JavaScript `isNaN` restricted to numbers: true exactly on `NaN`. -/
def JSNum.isNaN : JSNum → Bool
  | .nan => true
  | _ => false

/-- The component state held in `useState` hooks: panel visibility, the
transcript, and the four numeric input fields (`number | null`). -/
structure State where
  isVisible : Bool
  messages : List Message
  soilpH : Option JSNum
  soilMoisture : Option JSNum
  temperatureC : Option JSNum
  rainfallMm : Option JSNum
deriving Repr, DecidableEq

/-- The initial welcome message of the transcript. -/
def initMessage : Message :=
  ⟨.bot, "Welcome to the Farm AI Chatbot! Please enter the following information to get crop recommendations:"⟩

/-- The initial component state: hidden panel, the single welcome message,
all four inputs `null`. -/
def initState : State :=
  { isVisible := false
    messages := [initMessage]
    soilpH := none
    soilMoisture := none
    temperatureC := none
    rainfallMm := none }

/-- Append one message at the end of the transcript
(`setMessages(prev => [...prev, m])`). -/
def appendMsg (s : State) (m : Message) : State :=
  { s with messages := s.messages ++ [m] }

/-! ### Number formatting helpers -/

/-- Left-pad a digit string with zeros to length `k`. -/
def padZeros (s : String) (k : Nat) : String :=
  if s.length < k then String.mk (List.replicate (k - s.length) '0') ++ s else s

/-- Multiply a rational by a natural number.  (Computed through `mkRat` on
the numerator so that concrete values evaluate inside `decide`; the
library's `Rat.mul` is `@[irreducible]`.) -/
def qMulNat (q : ℚ) (n : Nat) : ℚ := mkRat (q.num * n) q.den

/-- JavaScript `String(x)` / `JSON.stringify(x)` for a finite number: the
exact decimal expansion without trailing zeros.  The minimal number `k`
of fractional digits is found as the least `k` with `q.den ∣ 10 ^ k`
(`Rat` values are kept reduced, so this is exactly when `q * 10 ^ k` is
an integer).  JavaScript switches to exponential notation only for
extreme magnitudes, which never arise here; the search bound 400 covers
every decimal length this component can produce. -/
def numToString (q : ℚ) : String :=
  if q.num = 0 then "0"
  else
    let sign := if q.num < 0 then "-" else ""
    let m := q.num.natAbs
    match (List.range 400).find? (fun k => 10 ^ k % q.den = 0) with
    | some k =>
      let n : Nat := m * 10 ^ k / q.den
      if k = 0 then sign ++ toString n
      else sign ++ toString (n / 10 ^ k) ++ "." ++ padZeros (toString (n % 10 ^ k)) k
    | none => sign ++ "0"

/-- JavaScript `Number.prototype.toFixed(d)`: format with exactly `d` fractional
digits, rounding the absolute value half away from zero (the ECMAScript
algorithm first splits off the sign, then picks the closest `n / 10 ^ d`,
choosing the larger `n` on ties).  With `q = ±m / den`, the rounded
numerator is `⌊(m / den) * 10 ^ d + 1 / 2⌋ = (2 * m * 10 ^ d + den) / (2 * den)`,
computed in natural-number arithmetic. -/
def toFixedQ (q : ℚ) (d : Nat) : String :=
  let sign := if q.num < 0 then "-" else ""
  let n : Nat := (2 * q.num.natAbs * 10 ^ d + q.den) / (2 * q.den)
  if d = 0 then sign ++ toString n
  else sign ++ toString (n / 10 ^ d) ++ "." ++ padZeros (toString (n % 10 ^ d)) d

/-- Rendering of an interpolated `number | null` state variable inside a
template literal: `null` prints "null", `NaN` prints "NaN", infinities
print "Infinity" / "-Infinity", finite values print as `String(x)`. -/
def dispOpt : Option JSNum → String
  | none => "null"
  | some .nan => "NaN"
  | some .posInf => "Infinity"
  | some .negInf => "-Infinity"
  | some (.finite q) => numToString q

/-! ### Handlers: visibility toggle, input edits, validation and submission -/

/-- The `toggleChatbot` handler: `setIsVisible(prevState => !prevState)`. -/
def toggleChatbot (s : State) : State := { s with isVisible := !s.isVisible }

/-- The change handler of the Soil pH input (`setSoilpH`): the handler stores
`null` for an empty input and `parseFloat(e.target.value)` otherwise, so the
stored value ranges over `Option JSNum`. -/
def setSoilpH (v : Option JSNum) (s : State) : State := { s with soilpH := v }

/-- The change handler of the Soil Moisture input (`setSoilMoisture`). -/
def setSoilMoisture (v : Option JSNum) (s : State) : State := { s with soilMoisture := v }

/-- The change handler of the Temperature input (`setTemperatureC`). -/
def setTemperatureC (v : Option JSNum) (s : State) : State := { s with temperatureC := v }

/-- The change handler of the Rainfall input (`setRainfallMm`). -/
def setRainfallMm (v : Option JSNum) (s : State) : State := { s with rainfallMm := v }

/-- The list `const requiredFields = ['Soil_pH', 'Soil_Moisture', 'Temperature_C', 'Rainfall_mm']`. -/
def requiredFields : List String := ["Soil_pH", "Soil_Moisture", "Temperature_C", "Rainfall_mm"]

/-- String-keyed lookup in the `farmInputs` object built by
`handleGetRecommendations` (the `FarmInputs` index signature yields
`undefined`, i.e. `none`, on any other key). -/
def getField (s : State) (f : String) : Option JSNum :=
  if f = "Soil_pH" then s.soilpH
  else if f = "Soil_Moisture" then s.soilMoisture
  else if f = "Temperature_C" then s.temperatureC
  else if f = "Rainfall_mm" then s.rainfallMm
  else none

/-- The per-field validation predicate
`farmInputs[field] !== null && !isNaN(farmInputs[field] as number)`. -/
def fieldFilled : Option JSNum → Bool
  | none => false
  | some v => !v.isNaN

/-- The check `requiredFields.every(...)` over `fieldFilled`. -/
def allFieldsFilled (s : State) : Bool :=
  requiredFields.all fun f => fieldFilled (getField s f)

/-- Character map with the effect of
`.replace(/_/g, ' ')`, replacing every underscore by a space. -/
def replaceUnderscores (s : String) : String :=
  String.mk (s.data.map fun c => if c = '_' then ' ' else c)

/-- JavaScript `Array.prototype.join(', ')`. -/
def joinComma : List String → String
  | [] => ""
  | [x] => x
  | x :: xs => x ++ ", " ++ joinComma xs

/-- The text built on the validation-failure branch:
`requiredFields.filter(...).join(', ').replace(/_/g, ' ')`. -/
def missingFieldsText (s : State) : String :=
  replaceUnderscores (joinComma
    (requiredFields.filter fun f => !fieldFilled (getField s f)))

/-- The payload of the network call: `Object.fromEntries` over the entries of
`farmInputs` (the `value as number` cast is an identity at runtime, so the
values are carried unchanged). -/
structure DataToSend where
  Soil_pH : Option JSNum
  Soil_Moisture : Option JSNum
  Temperature_C : Option JSNum
  Rainfall_mm : Option JSNum
deriving Repr, DecidableEq

/-- The user-visible summary interpolated on the success branch:
a template literal over the four input state variables. -/
def userInputSummary (s : State) : String :=
  "My farm data: pH: " ++ dispOpt s.soilpH ++ ", Moisture: " ++ dispOpt s.soilMoisture ++
    ", Temperature: " ++ dispOpt s.temperatureC ++ "°C, Rainfall: " ++ dispOpt s.rainfallMm ++ "mm"

/-- The `handleGetRecommendations` click handler.  Returns the next state
together with the argument of the `sendDataToBackend` call (`none` when the
validation fails and no network step is invoked). -/
def handleGetRecommendations (s : State) : State × Option DataToSend :=
  if allFieldsFilled s then
    ({ s with messages := s.messages ++
        [⟨.user, userInputSummary s⟩, ⟨.bot, "Fetching recommendations..."⟩] },
     some ⟨s.soilpH, s.soilMoisture, s.temperatureC, s.rainfallMm⟩)
  else
    ({ s with messages := s.messages ++
        [⟨.bot, "Please enter valid values for: " ++ missingFieldsText s ++ "."⟩] },
     none)

/-! ### Request construction (`sendDataToBackend`, lines 85-108) -/

/-- Serialization (`JSON.stringify`) of one numeric field value: finite numbers print their
decimal expansion; `NaN` and the infinities serialize as `null` (and a
`null` value would too, though validation rules it out on this path). -/
def stringifyNumField : Option JSNum → String
  | some (.finite q) => numToString q
  | _ => "null"

/-- The object `farmInputsData = { Soil_pH, Soil_Moisture }` as a key/value list. -/
def farmInputsData (d : DataToSend) : List (String × Option JSNum) :=
  [("Soil_pH", d.Soil_pH), ("Soil_Moisture", d.Soil_Moisture)]

/-- The object `weatherForecastData = { Temperature_C, Rainfall_mm }` as a key/value list. -/
def weatherForecastData (d : DataToSend) : List (String × Option JSNum) :=
  [("Temperature_C", d.Temperature_C), ("Rainfall_mm", d.Rainfall_mm)]

/-- The two-group request object `{ farmInputs: ..., weatherForecast: ... }`. -/
def requestObject (d : DataToSend) : List (String × List (String × Option JSNum)) :=
  [("farmInputs", farmInputsData d), ("weatherForecast", weatherForecastData d)]

/-- Comma-separated join used by `JSON.stringify` for object members. -/
def joinNoSep : List String → String
  | [] => ""
  | [x] => x
  | x :: xs => x ++ "," ++ joinNoSep xs

/-- Serialization (`JSON.stringify`) of one inner group object. -/
def stringifyGroup (g : List (String × Option JSNum)) : String :=
  "\x7b" ++ joinNoSep (g.map fun p => "\"" ++ p.1 ++ "\":" ++ stringifyNumField p.2) ++ "\x7d"

/-- The string `const requestBody = JSON.stringify({ farmInputs: ..., weatherForecast: ... })`. -/
def requestBody (d : DataToSend) : String :=
  "\x7b" ++ joinNoSep ((requestObject d).map fun p => "\"" ++ p.1 ++ "\":" ++ stringifyGroup p.2) ++ "\x7d"

/-! ### Response rendering (`displayRecommendations`, lines 138-154) -/

/-- One element of the `recommendations` array of the parsed response body.
Every field may be `undefined` (`none`): the source indexes the records
with no shape check.  Numeric fields are finite rationals, since they come
from `response.json()` and JSON has no `NaN` or infinities. -/
structure RecRecord where
  Crop : Option String
  Estimated_ROI_Percentage : Option ℚ
  Predicted_Yield : Option ℚ
  Predicted_Price : Option ℚ
  Estimated_Profit : Option ℚ
  Pest_Risk_Score : Option ℚ
  Explanation : Option String
deriving Repr, DecidableEq

/-- The parsed response body: an object whose `recommendations` member may
be absent. -/
structure RespData where
  recommendations : Option (List RecRecord)
deriving Repr, DecidableEq

/-- Template-literal interpolation of a possibly-`undefined` string field
(`${undefined}` prints "undefined"). -/
def strOfOpt : Option String → String
  | none => "undefined"
  | some s => s

/-- Evaluation of `x.toFixed(d)` on a possibly-`undefined` field: accessing `.toFixed`
on `undefined` throws a `TypeError`, modelled by `Except.error`. -/
def jsToFixed (v : Option ℚ) (d : Nat) : Except String String :=
  match v with
  | none => .error "Cannot read properties of undefined (reading 'toFixed')"
  | some q => .ok (toFixedQ q d)

/-- Evaluation of `(rec.Pest_Risk_Score * 100).toFixed(1)`: a missing
score gives `undefined * 100 = NaN`, and `NaN.toFixed(1)` returns the
string "NaN" without throwing (multiplication never throws and `toFixed`
is called on the number `NaN`, not on `undefined`); a present score is
scaled and formatted normally. -/
def pestRiskText : Option ℚ → String
  | none => "NaN"
  | some q => toFixedQ (qMulNat q 100) 1

/-- The text block appended for the record at (1-based) rank `k` by the
`forEach` body, when no field access throws.  The bracketing and literal
pieces follow the four `responseText +=` template literals of the source. -/
def recBlock (k : Nat) (rec : RecRecord) : String :=
  toString k ++ ". " ++ strOfOpt rec.Crop ++ " - " ++
      toFixedQ (rec.Estimated_ROI_Percentage.getD 0) 1 ++ "% ROI\n" ++
    "  Yield: " ++ toFixedQ (rec.Predicted_Yield.getD 0) 1 ++
      " tons | Price: $" ++ toFixedQ (rec.Predicted_Price.getD 0) 2 ++
      " | Profit: $" ++ toFixedQ (rec.Estimated_Profit.getD 0) 2 ++ "\n" ++
    "  Pest Risk: " ++ pestRiskText rec.Pest_Risk_Score ++ "%\n" ++
    "  Summary: " ++ strOfOpt rec.Explanation ++ "\n\n"

/-- The `forEach` body for the record at (1-based) rank `k`: evaluates the
four direct `rec.X.toFixed(...)` calls in source order (ROI, yield,
price, profit), propagating the first `TypeError`; the pest-risk line
cannot throw (see `pestRiskText`), so an otherwise-complete record yields
its text block even with `Pest_Risk_Score` missing. -/
def renderRec (k : Nat) (rec : RecRecord) : Except String String :=
  match jsToFixed rec.Estimated_ROI_Percentage 1 with
  | .error e => .error e
  | .ok _ =>
    match jsToFixed rec.Predicted_Yield 1 with
    | .error e => .error e
    | .ok _ =>
      match jsToFixed rec.Predicted_Price 2 with
      | .error e => .error e
      | .ok _ =>
        match jsToFixed rec.Estimated_Profit 2 with
        | .error e => .error e
        | .ok _ => .ok (recBlock k rec)

/-- The `forEach` loop over the recommendations, starting at rank `k`:
concatenation of the blocks, or the first thrown `TypeError`. -/
def renderBlocks (k : Nat) : List RecRecord → Except String String
  | [] => .ok ""
  | r :: rs =>
    match renderRec k r with
    | .error e => .error e
    | .ok b =>
      match renderBlocks (k + 1) rs with
      | .error e => .error e
      | .ok rest => .ok (b ++ rest)

/-- The renderer `displayRecommendations(data)`.  The guard mirrors
`data && data.recommendations && data.recommendations.length > 0`; the
non-empty branch appends one bot message built by the loop (or rethrows
the loop's `TypeError`), the other branches append the fixed
no-recommendations message. -/
def displayRecommendations (data : Option RespData) (s : State) : Except String State :=
  match data with
  | some d =>
    match d.recommendations with
    | some recs =>
      if recs.length > 0 then
        match renderBlocks 1 recs with
        | .error e => .error e
        | .ok blocks =>
          .ok (appendMsg s ⟨.bot, "Here are the top recommendations:\n" ++ blocks⟩)
      else .ok (appendMsg s ⟨.bot, "No recommendations found for the provided data."⟩)
    | none => .ok (appendMsg s ⟨.bot, "No recommendations found for the provided data."⟩)
  | none => .ok (appendMsg s ⟨.bot, "No recommendations found for the provided data."⟩)

/-! ### Response handling (`sendDataToBackend`, lines 103-136) -/

/-- Abstract outcome of the `fetch` call: either the promise rejects with a
transport error, or a `Response` arrives carrying an HTTP status and the
outcome of `response.json()` (which may itself reject with a parse error). -/
inductive FetchOutcome where
  | networkFailure (msg : String)
  | response (status : Nat) (body : Except String (Option RespData))
deriving Repr

/-- The `.catch` handler: appends the single bot error message built from
`error.message`. -/
def catchHandler (msg : String) (s : State) : State :=
  appendMsg s ⟨.bot, "Error fetching recommendations: " ++ msg ++ ". Please try again."⟩

/-- The input reset performed after a successful render:
`setSoilpH(null); setSoilMoisture(null); setTemperatureC(null); setRainfallMm(null)`. -/
def resetInputs (s : State) : State :=
  { s with soilpH := none, soilMoisture := none, temperatureC := none, rainfallMm := none }

/-- The promise chain of `sendDataToBackend` after the request is issued:
a non-ok status (`response.ok` is `200 ≤ status ≤ 299`) throws
`HTTP error! Status: <status>`; a `json()` failure rethrows; otherwise
`displayRecommendations` runs and, if it returns normally, the four inputs
are reset.  Every thrown error lands in the `.catch` handler. -/
def processResponse (o : FetchOutcome) (s : State) : State :=
  match o with
  | .networkFailure msg => catchHandler msg s
  | .response status body =>
    if 200 ≤ status ∧ status ≤ 299 then
      match body with
      | .error msg => catchHandler msg s
      | .ok data =>
        match displayRecommendations data s with
        | .ok s' => resetInputs s'
        | .error msg => catchHandler msg s
    else catchHandler ("HTTP error! Status: " ++ toString status) s

/-- The operation `sendDataToBackend` as a whole: the serialized request body it posts,
and the state transformation performed once the network outcome arrives. -/
def sendDataToBackend (d : DataToSend) (o : FetchOutcome) (s : State) : String × State :=
  (requestBody d, processResponse o s)

/-! ### Operations and reachability -/

/-- One user-visible operation of the widget: toggling, editing one input,
clicking "Get Recommendations", or an asynchronous network completion. -/
inductive Step : State → State → Prop where
  | toggle (s : State) : Step s (toggleChatbot s)
  | editPH (s : State) (v : Option JSNum) : Step s (setSoilpH v s)
  | editMoisture (s : State) (v : Option JSNum) : Step s (setSoilMoisture v s)
  | editTemp (s : State) (v : Option JSNum) : Step s (setTemperatureC v s)
  | editRain (s : State) (v : Option JSNum) : Step s (setRainfallMm v s)
  | submit (s : State) : Step s (handleGetRecommendations s).1
  | network (s : State) (o : FetchOutcome) : Step s (processResponse o s)

/-- A state is reachable when a finite sequence of operations leads to it
from the initial state. -/
def Reachable (s : State) : Prop := Relation.ReflTransGen Step initState s

/-! ### Concrete fixtures used by witnesses and counterexamples -/

/-- The recommendation record of the spec's worked example: Crop "Maize",
ROI 12.34, yield 5.678, price 200.5, profit 150.256, pest risk 0.2,
explanation "stable". -/
def maizeRec : RecRecord :=
  { Crop := some "Maize"
    Estimated_ROI_Percentage := some (mkRat 1234 100)
    Predicted_Yield := some (mkRat 5678 1000)
    Predicted_Price := some (mkRat 2005 10)
    Estimated_Profit := some (mkRat 150256 1000)
    Pest_Risk_Score := some (mkRat 2 10)
    Explanation := some "stable" }

/-- A malformed record: present in the array but with every field
`undefined`, as a server is free to send. -/
def badRec : RecRecord :=
  { Crop := none
    Estimated_ROI_Percentage := none
    Predicted_Yield := none
    Predicted_Price := none
    Estimated_Profit := none
    Pest_Risk_Score := none
    Explanation := none }

/-- The Maize record with only `Pest_Risk_Score` missing: the four
directly-formatted fields are present, so the loop completes and renders
the line "Pest Risk: NaN%". -/
def noRiskRec : RecRecord := { maizeRec with Pest_Risk_Score := none }

/-- A state whose four inputs hold 6.5, 40, 25 and 100. -/
def filledState : State :=
  { initState with
      soilpH := some (.finite (mkRat 65 10))
      soilMoisture := some (.finite (mkRat 40 1))
      temperatureC := some (.finite (mkRat 25 1))
      rainfallMm := some (.finite (mkRat 100 1)) }

/-- A state whose Soil pH input holds `Infinity` (reachable: the number
input accepts the string "1e999" and `parseFloat("1e999")` is `Infinity`)
while the other three inputs hold finite values. -/
def infinityState : State :=
  { initState with
      soilpH := some .posInf
      soilMoisture := some (.finite (mkRat 40 1))
      temperatureC := some (.finite (mkRat 25 1))
      rainfallMm := some (.finite (mkRat 100 1)) }

/-! ### Helper notions for the renderer theorems -/

/-- A record is well formed when all five numeric fields are present
(the shape promised by the response schema). -/
def WellFormedRec (rec : RecRecord) : Bool :=
  rec.Estimated_ROI_Percentage.isSome && rec.Predicted_Yield.isSome &&
    rec.Predicted_Price.isSome && rec.Estimated_Profit.isSome && rec.Pest_Risk_Score.isSome

/-- A record is formattable when the four fields accessed directly with
`.toFixed` (ROI, yield, price, profit) are present; these are exactly the
fields whose absence makes the loop throw.  `Pest_Risk_Score` is not
required: its line goes through `undefined * 100 = NaN` and renders
"NaN" instead of throwing. -/
def FormattableRec (rec : RecRecord) : Bool :=
  rec.Estimated_ROI_Percentage.isSome && rec.Predicted_Yield.isSome &&
    rec.Predicted_Price.isSome && rec.Estimated_Profit.isSome

/-- The whole text produced by the `forEach` loop from rank `k` on, for a
list of records none of which throws. -/
def blocksText (k : Nat) : List RecRecord → String
  | [] => ""
  | r :: rs => recBlock k r ++ blocksText (k + 1) rs

/-- Occurrence of `frag` (contiguously) inside `t`. -/
def strIncludes (t frag : String) : Prop := ∃ p q, t = p ++ (frag ++ q)

/-- The rank line of a record: `<k>. <Crop> - <ROI to 1 decimal>% ROI`. -/
def rankFragment (k : Nat) (rec : RecRecord) : String :=
  toString k ++ ". " ++ strOfOpt rec.Crop ++ " - " ++
    toFixedQ (rec.Estimated_ROI_Percentage.getD 0) 1 ++ "% ROI"

/-- The metrics line of a record:
`Yield: <y to 1 decimal> tons | Price: $<p to 2 decimals> | Profit: $<p to 2 decimals>`. -/
def yieldFragment (rec : RecRecord) : String :=
  "Yield: " ++ toFixedQ (rec.Predicted_Yield.getD 0) 1 ++
    " tons | Price: $" ++ toFixedQ (rec.Predicted_Price.getD 0) 2 ++
    " | Profit: $" ++ toFixedQ (rec.Estimated_Profit.getD 0) 2

/-- The pest-risk line of a record: `Pest Risk: <score*100 to 1 decimal>%`. -/
def riskFragment (rec : RecRecord) : String :=
  "Pest Risk: " ++ pestRiskText rec.Pest_Risk_Score ++ "%"

/-- A request failure in the sense of the spec: the fetch promise rejected,
the HTTP status was outside the 2xx range, or `response.json()` rejected. -/
def FetchOutcome.IsFailure : FetchOutcome → Prop
  | .networkFailure _ => True
  | .response status body => ¬(200 ≤ status ∧ status ≤ 299) ∨ ∃ m, body = .error m

/-- The unique path of `processResponse` on which the input reset runs: a
2xx response whose body parsed and whose rendering returns normally. -/
def renderSuccess (o : FetchOutcome) (s : State) : Bool :=
  match o with
  | .networkFailure _ => false
  | .response status body =>
    decide (200 ≤ status ∧ status ≤ 299) &&
      (match body with
       | .error _ => false
       | .ok data =>
         match displayRecommendations data s with
         | .ok _ => true
         | .error _ => false)

/-- A payload is formattable when every present record is formattable. -/
def FormattableData : Option RespData → Prop
  | none => True
  | some d =>
    match d.recommendations with
    | none => True
    | some recs => ∀ r ∈ recs, FormattableRec r = true

lemma formattableRec_of_wellFormed {rec : RecRecord} (h : WellFormedRec rec = true) :
    FormattableRec rec = true := by
  simp only [WellFormedRec, Bool.and_eq_true] at h
  simp only [FormattableRec, Bool.and_eq_true]
  exact h.1

lemma renderRec_ok (k : Nat) (rec : RecRecord) (h : FormattableRec rec = true) :
    renderRec k rec = .ok (recBlock k rec) := by
  obtain ⟨crop, roi, yld, price, profit, risk, expl⟩ := rec
  cases roi <;> cases yld <;> cases price <;> cases profit <;>
    simp_all [FormattableRec, renderRec, jsToFixed]

lemma renderBlocks_ok (recs : List RecRecord) (h : ∀ r ∈ recs, FormattableRec r = true)
    (k : Nat) : renderBlocks k recs = .ok (blocksText k recs) := by
  induction recs generalizing k with
  | nil => rfl
  | cons r rs ih =>
    have hr : FormattableRec r = true := h r (by simp)
    have hrs : ∀ x ∈ rs, FormattableRec x = true := fun x hx => h x (by simp [hx])
    simp [renderBlocks, renderRec_ok k r hr, ih hrs, blocksText]

lemma strIncludes_left (p : String) {t frag : String} (h : strIncludes t frag) :
    strIncludes (p ++ t) frag := by
  obtain ⟨a, b, rfl⟩ := h
  exact ⟨p ++ a, b, by rw [String.append_assoc]⟩

lemma strIncludes_mid {t p m q frag : String} (h : t = p ++ (m ++ q))
    (hm : strIncludes m frag) : strIncludes t frag := by
  obtain ⟨a, b, rfl⟩ := hm
  refine ⟨p ++ a, b ++ q, ?_⟩
  rw [h]
  simp only [String.append_assoc]

lemma blocksText_decomp (recs : List RecRecord) (k i : Nat) (hi : i < recs.length) :
    ∃ p q, blocksText k recs = p ++ (recBlock (k + i) (recs.get ⟨i, hi⟩) ++ q) := by
  induction recs generalizing k i with
  | nil => exact absurd hi (Nat.not_lt_zero i)
  | cons r rs ih =>
    cases i with
    | zero =>
      exact ⟨"", blocksText (k + 1) rs, by simp [blocksText]⟩
    | succ j =>
      obtain ⟨p, q, hp⟩ := ih (k + 1) j (Nat.lt_of_succ_lt_succ hi)
      refine ⟨recBlock k r ++ p, q, ?_⟩
      show recBlock k r ++ blocksText (k + 1) rs = _
      rw [hp, show k + 1 + j = k + (j + 1) by omega]
      simp only [String.append_assoc, List.get]

lemma recBlock_includes_rank (k : Nat) (rec : RecRecord) :
    strIncludes (recBlock k rec) (rankFragment k rec) := by
  refine ⟨"", "\n" ++ "  Yield: " ++ toFixedQ (rec.Predicted_Yield.getD 0) 1 ++
    " tons | Price: $" ++ toFixedQ (rec.Predicted_Price.getD 0) 2 ++
    " | Profit: $" ++ toFixedQ (rec.Estimated_Profit.getD 0) 2 ++ "\n" ++
    "  Pest Risk: " ++ pestRiskText rec.Pest_Risk_Score ++ "%\n" ++
    "  Summary: " ++ strOfOpt rec.Explanation ++ "\n\n", ?_⟩
  simp only [recBlock, rankFragment, String.empty_append]
  rw [show ("% ROI\n" : String) = "% ROI" ++ "\n" from rfl]
  simp only [String.append_assoc]

lemma recBlock_includes_yield (k : Nat) (rec : RecRecord) :
    strIncludes (recBlock k rec) (yieldFragment rec) := by
  refine ⟨toString k ++ ". " ++ strOfOpt rec.Crop ++ " - " ++
      toFixedQ (rec.Estimated_ROI_Percentage.getD 0) 1 ++ "% ROI\n" ++ "  ",
    "\n" ++ "  Pest Risk: " ++ pestRiskText rec.Pest_Risk_Score ++ "%\n" ++
      "  Summary: " ++ strOfOpt rec.Explanation ++ "\n\n", ?_⟩
  simp only [recBlock, yieldFragment]
  rw [show ("  Yield: " : String) = "  " ++ "Yield: " from rfl]
  simp only [String.append_assoc]

lemma recBlock_includes_risk (k : Nat) (rec : RecRecord) :
    strIncludes (recBlock k rec) (riskFragment rec) := by
  refine ⟨toString k ++ ". " ++ strOfOpt rec.Crop ++ " - " ++
      toFixedQ (rec.Estimated_ROI_Percentage.getD 0) 1 ++ "% ROI\n" ++
      "  Yield: " ++ toFixedQ (rec.Predicted_Yield.getD 0) 1 ++
      " tons | Price: $" ++ toFixedQ (rec.Predicted_Price.getD 0) 2 ++
      " | Profit: $" ++ toFixedQ (rec.Estimated_Profit.getD 0) 2 ++ "\n" ++ "  ",
    "\n" ++ "  Summary: " ++ strOfOpt rec.Explanation ++ "\n\n", ?_⟩
  simp only [recBlock, riskFragment]
  rw [show ("  Pest Risk: " : String) = "  " ++ "Pest Risk: " from rfl,
    show ("%\n" : String) = "%" ++ "\n" from rfl]
  simp only [String.append_assoc]

/-! ### Transcript lemmas -/

lemma display_messages {data : Option RespData} {s s' : State}
    (h : displayRecommendations data s = .ok s') :
    ∃ m, s'.messages = s.messages ++ [m] := by
  rcases data with _ | ⟨_ | recs⟩
  · exact ⟨_, by rw [← Except.ok.inj h]; rfl⟩
  · exact ⟨_, by rw [← Except.ok.inj h]; rfl⟩
  · simp only [displayRecommendations] at h
    by_cases hl : recs.length > 0
    · rw [if_pos hl] at h
      split at h
      · cases h
      · exact ⟨_, by rw [← Except.ok.inj h]; rfl⟩
    · rw [if_neg hl] at h
      exact ⟨_, by rw [← Except.ok.inj h]; rfl⟩

lemma handleGet_messages (s : State) :
    ∃ t, (handleGetRecommendations s).1.messages = s.messages ++ t := by
  unfold handleGetRecommendations
  by_cases hv : allFieldsFilled s
  · exact ⟨_, by rw [if_pos hv]⟩
  · exact ⟨_, by rw [if_neg hv]⟩

lemma processResponse_messages (o : FetchOutcome) (s : State) :
    ∃ t, (processResponse o s).messages = s.messages ++ t := by
  rcases o with msg | ⟨status, body⟩
  · exact ⟨_, rfl⟩
  · simp only [processResponse]
    by_cases hok : 200 ≤ status ∧ status ≤ 299
    · rw [if_pos hok]
      rcases body with msg | data
      · exact ⟨_, rfl⟩
      · show ∃ t, (match displayRecommendations data s with
          | .ok s2 => resetInputs s2
          | .error msg => catchHandler msg s).messages = s.messages ++ t
        rcases hd : displayRecommendations data s with e | s2
        · exact ⟨_, rfl⟩
        · obtain ⟨m, hm⟩ := display_messages hd
          exact ⟨[m], hm⟩
    · rw [if_neg hok]
      exact ⟨_, rfl⟩

lemma step_messages {s s' : State} (h : Step s s') :
    ∃ t, s'.messages = s.messages ++ t := by
  cases h with
  | toggle => exact ⟨[], by simp [toggleChatbot]⟩
  | editPH v => exact ⟨[], by simp [setSoilpH]⟩
  | editMoisture v => exact ⟨[], by simp [setSoilMoisture]⟩
  | editTemp v => exact ⟨[], by simp [setTemperatureC]⟩
  | editRain v => exact ⟨[], by simp [setRainfallMm]⟩
  | submit => exact handleGet_messages s
  | network o => exact processResponse_messages o s

lemma head?_append_of_some {α : Type} {l t : List α} {m : α}
    (h : l.head? = some m) : (l ++ t).head? = some m := by
  cases l with
  | nil => cases h
  | cons a as => exact h

lemma reachable_head {s : State} (h : Reachable s) :
    s.messages.head? = some initMessage := by
  induction h with
  | refl => rfl
  | tail _ hstep ih =>
    obtain ⟨t, ht⟩ := step_messages hstep
    rw [ht]
    exact head?_append_of_some ih

/-! ### The claims -/

/-- C8: the transcript is append-only — every operation of the widget
(toggle, input edit, either branch of the submit handler, network success
or failure) and every normal return of the renderer either leaves the
message sequence unchanged or extends it at the end, so no message is
ever removed or modified and display order equals insertion order. -/
theorem chatbot_C8 :
    (∀ s s' : State, Step s s' → ∃ t, s'.messages = s.messages ++ t)
    ∧ (∀ (data : Option RespData) (s s' : State),
        displayRecommendations data s = .ok s' → ∃ t, s'.messages = s.messages ++ t) := by
  refine ⟨fun s s' h => step_messages h, fun data s s' h => ?_⟩
  obtain ⟨m, hm⟩ := display_messages h
  exact ⟨[m], hm⟩

/-- Witness for C8 at a concrete step: toggling from the initial state
extends the transcript by (an empty) suffix. -/
theorem chatbot_C8_witness :
    ∃ t, (toggleChatbot initState).messages = initState.messages ++ t :=
  chatbot_C8.1 initState (toggleChatbot initState) (Step.toggle initState)

/-- C9: the visibility flag is initially `false`, toggling twice is the
identity on the whole state, and any number of toggles leaves the
transcript and the four input fields unchanged. -/
theorem chatbot_C9 :
    initState.isVisible = false
    ∧ (∀ s : State, toggleChatbot (toggleChatbot s) = s)
    ∧ (∀ (n : Nat) (s : State),
        (toggleChatbot^[n] s).messages = s.messages
        ∧ (toggleChatbot^[n] s).soilpH = s.soilpH
        ∧ (toggleChatbot^[n] s).soilMoisture = s.soilMoisture
        ∧ (toggleChatbot^[n] s).temperatureC = s.temperatureC
        ∧ (toggleChatbot^[n] s).rainfallMm = s.rainfallMm) := by
  refine ⟨rfl, fun s => by simp [toggleChatbot], fun n => ?_⟩
  induction n with
  | zero => exact fun s => ⟨rfl, rfl, rfl, rfl, rfl⟩
  | succ k ih =>
    intro s
    rw [Function.iterate_succ_apply]
    exact ih (toggleChatbot s)

/-- C10: the initial transcript holds exactly one message — the bot
welcome message — and in every reachable state the transcript is
non-empty with a bot message in first position. -/
theorem chatbot_C10 :
    initState.messages = [initMessage]
    ∧ initMessage.sender = .bot
    ∧ ∀ s : State, Reachable s → s.messages ≠ [] ∧
        ∀ m, s.messages.head? = some m → m.sender = .bot := by
  refine ⟨rfl, rfl, fun s hs => ?_⟩
  have hh := reachable_head hs
  constructor
  · intro hnil
    rw [hnil] at hh
    cases hh
  · intro m hm
    rw [hh] at hm
    injection hm with hm2
    rw [← hm2]
    rfl

/-- Witness for C10 at the initial state (reachable by the empty
operation sequence). -/
theorem chatbot_C10_witness :
    initState.messages ≠ [] ∧
      ∀ m, initState.messages.head? = some m → m.sender = .bot :=
  chatbot_C10.2.2 initState Relation.ReflTransGen.refl

/-- C1: for every quadruple of input values, the request body groups
`Soil_pH` and `Soil_Moisture` under the key `farmInputs` and
`Temperature_C` and `Rainfall_mm` under the key `weatherForecast`; at the
concrete inputs pH 6.5, moisture 40, temperature 25, rainfall 100 the
serialized body is exactly the expected JSON string. -/
theorem chatbot_C1 :
    (∀ d : DataToSend,
      requestObject d =
        [("farmInputs", [("Soil_pH", d.Soil_pH), ("Soil_Moisture", d.Soil_Moisture)]),
         ("weatherForecast", [("Temperature_C", d.Temperature_C), ("Rainfall_mm", d.Rainfall_mm)])]
      ∧ requestBody d =
          "\x7b\"farmInputs\":" ++ stringifyGroup (farmInputsData d) ++
            ",\"weatherForecast\":" ++ stringifyGroup (weatherForecastData d) ++ "\x7d")
    ∧ requestBody ⟨some (.finite (mkRat 65 10)), some (.finite (mkRat 40 1)),
        some (.finite (mkRat 25 1)), some (.finite (mkRat 100 1))⟩ =
      "\x7b\"farmInputs\":\x7b\"Soil_pH\":6.5,\"Soil_Moisture\":40\x7d,\"weatherForecast\":\x7b\"Temperature_C\":25,\"Rainfall_mm\":100\x7d\x7d" := by
  refine ⟨fun d => ⟨rfl, ?_⟩, by decide⟩
  simp only [requestBody, requestObject, List.map, joinNoSep]
  rw [show ("\x7b\"farmInputs\":" : String) = "\x7b" ++ ("\"" ++ ("farmInputs" ++ "\":")) from rfl,
    show (",\"weatherForecast\":" : String) = "," ++ ("\"" ++ ("weatherForecast" ++ "\":")) from rfl]
  simp only [String.append_assoc]

/-- C2 fails as stated: `Infinity` is not a finite number, yet a state
whose Soil pH field holds `Infinity` passes the `isNaN`-based validation —
the submit handler invokes the network step and appends the two
success-branch messages instead of one error message. -/
theorem chatbot_C2_counterexample :
    (handleGetRecommendations infinityState).2 ≠ none
    ∧ (handleGetRecommendations infinityState).1.messages =
        infinityState.messages ++
          [⟨.user, "My farm data: pH: Infinity, Moisture: 40, Temperature: 25°C, Rainfall: 100mm"⟩,
           ⟨.bot, "Fetching recommendations..."⟩] := by
  refine ⟨by decide, by decide⟩

/-- C2 (amended): if any of the four input fields is absent or holds `NaN`
(the check the source performs is `!== null && !isNaN`, which lets
infinities through), the submit handler appends exactly one bot message
listing the offending field names (underscores replaced by spaces, names
joined by ", "), does not invoke the network step, and leaves the four
input fields unchanged. -/
theorem chatbot_C2_amended (s : State)
    (h : s.soilpH = none ∨ s.soilMoisture = none ∨ s.temperatureC = none ∨ s.rainfallMm = none
       ∨ s.soilpH = some .nan ∨ s.soilMoisture = some .nan ∨ s.temperatureC = some .nan
       ∨ s.rainfallMm = some .nan) :
    (handleGetRecommendations s).1 = { s with messages := s.messages ++
        [⟨.bot, "Please enter valid values for: " ++ missingFieldsText s ++ "."⟩] }
    ∧ (handleGetRecommendations s).2 = none := by
  have e1 : getField s "Soil_pH" = s.soilpH := rfl
  have e2 : getField s "Soil_Moisture" = s.soilMoisture := rfl
  have e3 : getField s "Temperature_C" = s.temperatureC := rfl
  have e4 : getField s "Rainfall_mm" = s.rainfallMm := rfl
  have hv : allFieldsFilled s = false := by
    simp only [allFieldsFilled, requiredFields, List.all_cons, List.all_nil,
      Bool.and_true, e1, e2, e3, e4]
    rcases h with h | h | h | h | h | h | h | h <;>
      simp [h, fieldFilled, JSNum.isNaN]
  constructor <;> simp [handleGetRecommendations, hv]

/-- Witness for the amended C2 at the initial state: all four fields are
absent, the handler appends the single validation message naming all four
fields, and no network step runs. -/
theorem chatbot_C2_witness :
    ((handleGetRecommendations initState).1 = { initState with messages := initState.messages ++
        [⟨.bot, "Please enter valid values for: " ++ missingFieldsText initState ++ "."⟩] }
      ∧ (handleGetRecommendations initState).2 = none)
    ∧ missingFieldsText initState = "Soil pH, Soil Moisture, Temperature C, Rainfall mm" :=
  ⟨chatbot_C2_amended initState (Or.inl rfl), by decide⟩

/-- C3: when all four fields hold finite numbers, the submit handler
appends exactly two messages — the user summary literally interpolating
the four values, then the "Fetching recommendations..." placeholder — and
invokes the network step with those values. -/
theorem chatbot_C3 (s : State) (a b c d : ℚ)
    (h1 : s.soilpH = some (.finite a)) (h2 : s.soilMoisture = some (.finite b))
    (h3 : s.temperatureC = some (.finite c)) (h4 : s.rainfallMm = some (.finite d)) :
    (handleGetRecommendations s).1 = { s with messages := s.messages ++
        [⟨.user, "My farm data: pH: " ++ numToString a ++ ", Moisture: " ++ numToString b ++
            ", Temperature: " ++ numToString c ++ "°C, Rainfall: " ++ numToString d ++ "mm"⟩,
         ⟨.bot, "Fetching recommendations..."⟩] }
    ∧ (handleGetRecommendations s).2 =
        some ⟨some (.finite a), some (.finite b), some (.finite c), some (.finite d)⟩ := by
  have e1 : getField s "Soil_pH" = s.soilpH := rfl
  have e2 : getField s "Soil_Moisture" = s.soilMoisture := rfl
  have e3 : getField s "Temperature_C" = s.temperatureC := rfl
  have e4 : getField s "Rainfall_mm" = s.rainfallMm := rfl
  have hv : allFieldsFilled s = true := by
    simp [allFieldsFilled, requiredFields, e1, e2, e3, e4, h1, h2, h3, h4,
      fieldFilled, JSNum.isNaN]
  constructor <;>
    simp [handleGetRecommendations, hv, userInputSummary, dispOpt, h1, h2, h3, h4]

/-- Witness for C3 at the concrete inputs 6.5 / 40 / 25 / 100: the network
step is invoked with exactly those values. -/
theorem chatbot_C3_witness :
    (handleGetRecommendations filledState).2 =
      some ⟨some (.finite (mkRat 65 10)), some (.finite (mkRat 40 1)),
        some (.finite (mkRat 25 1)), some (.finite (mkRat 100 1))⟩ :=
  (chatbot_C3 filledState (mkRat 65 10) (mkRat 40 1) (mkRat 25 1) (mkRat 100 1)
    rfl rfl rfl rfl).2

/-- C4: on any request failure — rejected fetch, non-2xx status, or a
`response.json()` failure — exactly one bot message of the form
`Error fetching recommendations: <message>. Please try again.` is
appended and the four input fields keep their values. -/
theorem chatbot_C4 (s : State) (o : FetchOutcome) (h : o.IsFailure) :
    (∃ msg, processResponse o s = appendMsg s
        ⟨.bot, "Error fetching recommendations: " ++ msg ++ ". Please try again."⟩)
    ∧ (processResponse o s).soilpH = s.soilpH
    ∧ (processResponse o s).soilMoisture = s.soilMoisture
    ∧ (processResponse o s).temperatureC = s.temperatureC
    ∧ (processResponse o s).rainfallMm = s.rainfallMm := by
  rcases o with msg | ⟨status, body⟩
  · exact ⟨⟨msg, rfl⟩, rfl, rfl, rfl, rfl⟩
  · by_cases hok : 200 ≤ status ∧ status ≤ 299
    · rcases h with h | ⟨m, rfl⟩
      · exact absurd hok h
      · have e : processResponse (.response status (.error m)) s = catchHandler m s := by
          simp [processResponse, if_pos hok]
        exact ⟨⟨m, by rw [e]; rfl⟩, by rw [e]; rfl, by rw [e]; rfl, by rw [e]; rfl,
          by rw [e]; rfl⟩
    · have e : processResponse (.response status body) s =
          catchHandler ("HTTP error! Status: " ++ toString status) s := by
        simp [processResponse, if_neg hok]
      exact ⟨⟨"HTTP error! Status: " ++ toString status, by rw [e]; rfl⟩,
        by rw [e]; rfl, by rw [e]; rfl, by rw [e]; rfl, by rw [e]; rfl⟩

/-- Witness for C4 at a concrete rejected fetch from a filled state. -/
theorem chatbot_C4_witness :
    (∃ msg, processResponse (.networkFailure "Failed to fetch") filledState =
        appendMsg filledState
          ⟨.bot, "Error fetching recommendations: " ++ msg ++ ". Please try again."⟩)
    ∧ (processResponse (.networkFailure "Failed to fetch") filledState).soilpH
        = filledState.soilpH
    ∧ (processResponse (.networkFailure "Failed to fetch") filledState).soilMoisture
        = filledState.soilMoisture
    ∧ (processResponse (.networkFailure "Failed to fetch") filledState).temperatureC
        = filledState.temperatureC
    ∧ (processResponse (.networkFailure "Failed to fetch") filledState).rainfallMm
        = filledState.rainfallMm :=
  chatbot_C4 filledState (.networkFailure "Failed to fetch") True.intro

/-- C5 fails as stated: a 2xx response whose (parsed) payload contains a
malformed record makes the renderer throw, the subsequent reset lines are
skipped, and the inputs keep their values instead of being cleared. -/
theorem chatbot_C5_counterexample :
    (processResponse (.response 200 (.ok (some ⟨some [badRec]⟩))) filledState).soilpH
        = some (.finite (mkRat 65 10))
    ∧ (processResponse (.response 200 (.ok (some ⟨some [badRec]⟩))) filledState).soilpH
        ≠ none := by
  refine ⟨by decide, by decide⟩

/-- C5 (amended): on a 2xx response whose payload the renderer processes
without throwing, the handler first runs the renderer and afterwards
resets the four inputs to absent; on every other outcome (any failure, or
a renderer throw on a malformed payload) the four input fields are left
unchanged — so the reset happens on this path and only on this path. -/
theorem chatbot_C5_amended :
    (∀ (s : State) (status : Nat) (data : Option RespData) (s2 : State),
      200 ≤ status → status ≤ 299 → displayRecommendations data s = .ok s2 →
      processResponse (.response status (.ok data)) s = resetInputs s2)
    ∧ (∀ (s : State) (o : FetchOutcome), renderSuccess o s = false →
        (processResponse o s).soilpH = s.soilpH
        ∧ (processResponse o s).soilMoisture = s.soilMoisture
        ∧ (processResponse o s).temperatureC = s.temperatureC
        ∧ (processResponse o s).rainfallMm = s.rainfallMm) := by
  constructor
  · intro s status data s2 hlo hhi hd
    simp [processResponse, if_pos (And.intro hlo hhi), hd]
  · intro s o h
    rcases o with msg | ⟨status, body⟩
    · exact ⟨rfl, rfl, rfl, rfl⟩
    · by_cases hok : 200 ≤ status ∧ status ≤ 299
      · rcases body with msg | data
        · have e : processResponse (.response status (.error msg)) s = catchHandler msg s := by
            simp [processResponse, if_pos hok]
          exact ⟨by rw [e]; rfl, by rw [e]; rfl, by rw [e]; rfl, by rw [e]; rfl⟩
        · rcases hd : displayRecommendations data s with e2 | s2
          · have e : processResponse (.response status (.ok data)) s = catchHandler e2 s := by
              simp [processResponse, if_pos hok, hd]
            exact ⟨by rw [e]; rfl, by rw [e]; rfl, by rw [e]; rfl, by rw [e]; rfl⟩
          · simp [renderSuccess, hok, hd] at h
      · have e : processResponse (.response status body) s =
            catchHandler ("HTTP error! Status: " ++ toString status) s := by
          simp [processResponse, if_neg hok]
        exact ⟨by rw [e]; rfl, by rw [e]; rfl, by rw [e]; rfl, by rw [e]; rfl⟩

/-- Witness for the amended C5 at a 2xx payload whose single record
misses exactly `Pest_Risk_Score`: the renderer completes (printing
"Pest Risk: NaN%"), the message is appended, and the inputs are reset. -/
theorem chatbot_C5_witness :
    processResponse (.response 200 (.ok (some ⟨some [noRiskRec]⟩))) filledState =
      resetInputs (appendMsg filledState
        ⟨.bot, "Here are the top recommendations:\n" ++ blocksText 1 [noRiskRec]⟩) :=
  chatbot_C5_amended.1 filledState 200 (some ⟨some [noRiskRec]⟩) _
    (by decide) (by decide) rfl

/-- C6: for a non-empty sequence of (well-formed) records the renderer
appends one bot message whose text contains, for the record at 0-based
index `i`, the rank line, the metrics line and the pest-risk line; for an
absent or empty recommendations sequence it appends exactly the
no-recommendations message.  At the spec's Maize record the three
fragments are the expected literal strings. -/
theorem chatbot_C6 :
    (∀ (s : State) (recs : List RecRecord), recs ≠ [] →
      (∀ r ∈ recs, WellFormedRec r = true) →
      displayRecommendations (some ⟨some recs⟩) s =
          .ok (appendMsg s ⟨.bot, "Here are the top recommendations:\n" ++ blocksText 1 recs⟩)
        ∧ ∀ i, (hi : i < recs.length) →
            strIncludes ("Here are the top recommendations:\n" ++ blocksText 1 recs)
              (rankFragment (i + 1) (recs.get ⟨i, hi⟩))
            ∧ strIncludes ("Here are the top recommendations:\n" ++ blocksText 1 recs)
                (yieldFragment (recs.get ⟨i, hi⟩))
            ∧ strIncludes ("Here are the top recommendations:\n" ++ blocksText 1 recs)
                (riskFragment (recs.get ⟨i, hi⟩)))
    ∧ (∀ s : State,
        displayRecommendations (some ⟨some []⟩) s =
          .ok (appendMsg s ⟨.bot, "No recommendations found for the provided data."⟩)
        ∧ displayRecommendations (some ⟨none⟩) s =
          .ok (appendMsg s ⟨.bot, "No recommendations found for the provided data."⟩)
        ∧ displayRecommendations none s =
          .ok (appendMsg s ⟨.bot, "No recommendations found for the provided data."⟩))
    ∧ (rankFragment 1 maizeRec = "1. Maize - 12.3% ROI"
        ∧ yieldFragment maizeRec = "Yield: 5.7 tons | Price: $200.50 | Profit: $150.26"
        ∧ riskFragment maizeRec = "Pest Risk: 20.0%") := by
  refine ⟨?_, fun s => ⟨rfl, rfl, rfl⟩, by decide⟩
  intro s recs hne hwf
  have hlen : recs.length > 0 := List.length_pos.mpr hne
  constructor
  · simp [displayRecommendations, hlen,
      renderBlocks_ok recs (fun r hr => formattableRec_of_wellFormed (hwf r hr)) 1]
  · intro i hi
    obtain ⟨p, q, hp⟩ := blocksText_decomp recs 1 i hi
    rw [show (1 : Nat) + i = i + 1 by omega] at hp
    have h2 : "Here are the top recommendations:\n" ++ blocksText 1 recs =
        ("Here are the top recommendations:\n" ++ p) ++
          (recBlock (i + 1) (recs.get ⟨i, hi⟩) ++ q) := by
      rw [hp, ← String.append_assoc]
    exact ⟨strIncludes_mid h2 (recBlock_includes_rank _ _),
      strIncludes_mid h2 (recBlock_includes_yield _ _),
      strIncludes_mid h2 (recBlock_includes_risk _ _)⟩

/-- Witness for C6 at the Maize payload from the initial state. -/
theorem chatbot_C6_witness :
    displayRecommendations (some ⟨some [maizeRec]⟩) initState =
      .ok (appendMsg initState
        ⟨.bot, "Here are the top recommendations:\n" ++ blocksText 1 [maizeRec]⟩) :=
  (chatbot_C6.1 initState [maizeRec] (by simp) (by decide)).1

/-- C7 fails as stated: the renderer throws a `TypeError` on a record with
a missing numeric field (accessing `.toFixed` of `undefined`), instead of
completing and appending a message. -/
theorem chatbot_C7_counterexample :
    displayRecommendations (some ⟨some [badRec]⟩) initState =
      .error "Cannot read properties of undefined (reading 'toFixed')" := rfl

/-- C7 (amended): the renderer completes and appends exactly one message
for every payload whose records carry the four directly-formatted numeric
fields (ROI, yield, price, profit); a missing `Pest_Risk_Score` does not
make it throw — that line renders "Pest Risk: NaN%", as witnessed at the
Maize record with the score removed — while a record missing one of the
four fields raises a `TypeError` (which the surrounding response handler
turns into an error chat message). -/
theorem chatbot_C7_amended :
    (∀ (data : Option RespData) (s : State), FormattableData data →
      ∃ m, displayRecommendations data s = .ok (appendMsg s m))
    ∧ (∀ s : State,
        displayRecommendations (some ⟨some [noRiskRec]⟩) s =
          .ok (appendMsg s
            ⟨.bot, "Here are the top recommendations:\n" ++ blocksText 1 [noRiskRec]⟩)
        ∧ strIncludes ("Here are the top recommendations:\n" ++ blocksText 1 [noRiskRec])
            "Pest Risk: NaN%") := by
  constructor
  · intro data s h
    rcases data with _ | ⟨_ | recs⟩
    · exact ⟨_, rfl⟩
    · exact ⟨_, rfl⟩
    · by_cases hl : recs.length > 0
      · have hwf : ∀ r ∈ recs, FormattableRec r = true := h
        refine ⟨⟨.bot, "Here are the top recommendations:\n" ++ blocksText 1 recs⟩, ?_⟩
        simp [displayRecommendations, hl, renderBlocks_ok recs hwf 1]
      · have hnil : recs = [] := List.length_eq_zero.mp (Nat.eq_zero_of_not_pos hl)
        subst hnil
        exact ⟨_, rfl⟩
  · intro s
    refine ⟨rfl, ?_⟩
    exact ⟨"Here are the top recommendations:\n1. Maize - 12.3% ROI\n  Yield: 5.7 tons | Price: $200.50 | Profit: $150.26\n  ",
      "\n  Summary: stable\n\n", by decide⟩

/-- Witness for the amended C7 at the payload whose single record misses
exactly `Pest_Risk_Score`: the renderer still completes and appends one
message. -/
theorem chatbot_C7_witness :
    ∃ m, displayRecommendations (some ⟨some [noRiskRec]⟩) initState =
      .ok (appendMsg initState m) :=
  chatbot_C7_amended.1 (some ⟨some [noRiskRec]⟩) initState
    (show ∀ r ∈ [noRiskRec], FormattableRec r = true by decide)
